import Mathlib

/-!
Shallow embedding of the "Don't Eat Kebab" Flask backend
(`src/backend/main.py`): a thin HTTP adapter over an external
backend-as-a-service platform (identity provider, table store, object
store).  Each Flask handler is embedded as a pure Lean function; the
external calls are passed in as oracle parameters (their results), and
the mutating store calls a handler issues are returned as an explicit
effect trace.  Machine floats for weights are modelled as rationals;
ISO date strings are modelled as strings compared lexicographically
(which on well-formed ISO dates coincides with calendar order).
-/

namespace DontEatKebab

/-- A user identity as resolved by the external identity provider:
`serialize_user` keeps `id` and `email` (main.py lines 48-56). -/
structure User where
  id : String
  email : String
deriving DecidableEq

/-- The body of an HTTP response: either a success payload (the JSON the
handler returns) or an error object `{"detail": msg}`. -/
inductive RespBody (α : Type) where
  | payload (a : α)
  | detail (msg : String)
deriving DecidableEq

/-- An HTTP response: a status code and a body. -/
structure Response (α : Type) where
  status : Nat
  body : RespBody α
deriving DecidableEq

/-- Python's `str.split(sep)` for a single-character separator `c`:
keeps empty fields, never collapses adjacent separators, and returns
`[[]]` on the empty string — exactly CPython's semantics for
`s.split(" ")` and `s.split('@')` as used in main.py lines 76 and 159. -/
def splitOnChar (c : Char) : List Char → List (List Char)
  | [] => [[]]
  | x :: xs =>
    let r := splitOnChar c xs
    if x = c then [] :: r
    else
      match r with
      | y :: ys => (x :: y) :: ys
      | [] => [[x]]

/-- `splitOnChar` never returns an empty list of fields, mirroring that
Python's `split` always yields at least one element. -/
theorem splitOnChar_ne_nil (c : Char) (l : List Char) : splitOnChar c l ≠ [] := by
  cases l with
  | nil => simp [splitOnChar]
  | cons x xs =>
    simp only [splitOnChar]
    split
    · simp
    · split
      · simp
      · simp

/-- `email.split('@')[0]` from main.py line 159: the local part of an
email address (the whole string if it contains no `'@'`). -/
def localPart (e : String) : String :=
  ⟨((splitOnChar '@' e.data).headD [])⟩

/-- Result of the identity provider's `client.auth.get_user(token)` call:
a resolved user, a response with `user = None`, or a raised exception. -/
inductive AuthResult where
  | ok (user : User)
  | noUser
  | raised (e : String)

/-- The `require_auth` decorator (main.py lines 68-89).  Takes the
`Authorization` header (if present), the provider oracle `getUser`, and
the wrapped handler.  Returns the response together with a flag telling
whether the external identity provider was invoked.  A missing header
returns 401 immediately; otherwise the header is split on single spaces
and element 1 is taken as the token — when there is no element 1 the
`IndexError` is caught by the blanket `except` and mapped to 401 without
any provider call (Python's `IndexError` message is
"list index out of range"). -/
def require_auth {α : Type} (authHeader : Option String)
    (getUser : String → AuthResult) (handler : User → Response α) :
    Response α × Bool :=
  match authHeader with
  | none => (⟨401, .detail "Not authenticated - No auth header"⟩, false)
  | some h =>
    let parts := splitOnChar ' ' h.data
    match parts with
    | _ :: t :: _ =>
      match getUser (⟨t⟩ : String) with
      | .ok u => (handler u, true)
      | .noUser => (⟨401, .detail "Invalid or expired token"⟩, true)
      | .raised e =>
        (⟨401, .detail ("Invalid authentication credentials: " ++ e)⟩, true)
    | _ =>
      (⟨401, .detail "Invalid authentication credentials: list index out of range"⟩,
        false)

/-- The header format the specification documents for protected routes:
`Authorization: Bearer <token>` — exactly two space-separated fields,
the first being `Bearer` and the second a nonempty token.  (Stated from
the spec's words, for comparison with what `require_auth` accepts.) -/
def bearerFormat (h : String) : Bool :=
  match splitOnChar ' ' h.data with
  | [s, t] => s == "Bearer".data && !t.isEmpty
  | _ => false

/-- Lexicographic order on character lists.  On well-formed ISO
`YYYY-MM-DD` date strings this coincides with calendar order, and it is
the order the external table store applies to the `log_date` column. -/
def lexLe : List Char → List Char → Bool
  | [], _ => true
  | _ :: _, [] => false
  | a :: as, b :: bs => if a = b then lexLe as bs else decide (a < b)

/-- Date comparison used by the store for `gte`/`lte` filters and the
`order by log_date` clause. -/
def dateLe (a b : String) : Bool :=
  lexLe a.data b.data

/-- A row of the `profiles` table.  `email` is optional because the
update endpoint's upsert payload carries no email field. -/
structure ProfileRow where
  id : String
  email : Option String
  username : Option String
  fullName : Option String
  avatarUrl : Option String
  updatedAt : String
deriving DecidableEq

/-- A row of the `weight_logs` table. -/
structure WeightRow where
  userId : String
  weight : ℚ
  logDate : String
deriving DecidableEq

/-- A mutating call a handler issues against the external platform, in
program order. -/
inductive Effect where
  | insertProfile (row : ProfileRow)
  | upsertProfile (row : ProfileRow)
  | updateProfileAvatar (id : String) (avatarUrl : String) (updatedAt : String)
  | storageUpload (path : String) (content : List Nat) (contentType : String)
  | upsertWeight (row : WeightRow)
deriving DecidableEq

/-- `GET /api/profile/<user_id>` (main.py lines 145-174).  Oracles:
`selectSingle` is the result of the `.eq('id', user_id).single()` select
(`.ok none` models a response with empty `data`, `.error` a raised
exception), `insert` the result of the `profiles` insert; `now` is
`datetime.utcnow().isoformat()`. -/
def get_profile (currentUser : User) (user_id : String)
    (selectSingle : Except String (Option ProfileRow))
    (insert : ProfileRow → Except String (List ProfileRow))
    (now : String) : Response ProfileRow × List Effect :=
  if user_id ≠ currentUser.id then
    (⟨403, .detail "Not authorized to view this profile"⟩, [])
  else
    match selectSingle with
    | .error e => (⟨500, .detail e⟩, [])
    | .ok (some row) =>
      (⟨200, .payload { row with email := some currentUser.email }⟩, [])
    | .ok none =>
      let data : ProfileRow :=
        { id := user_id, email := some currentUser.email,
          username := some (localPart currentUser.email),
          fullName := some "", avatarUrl := none, updatedAt := now }
      match insert data with
      | .error e => (⟨500, .detail e⟩, [.insertProfile data])
      | .ok [] => (⟨404, .detail "Failed to create profile"⟩, [.insertProfile data])
      | .ok (r :: _) =>
        (⟨200, .payload { r with email := some currentUser.email }⟩,
          [.insertProfile data])

/-- Body of `PUT /api/profile/<user_id>`: the three optional fields read
with `data.get(...)`. -/
structure UpdateBody where
  username : Option String
  fullName : Option String
  avatarUrl : Option String
deriving DecidableEq

/-- `PUT /api/profile/<user_id>` (main.py lines 176-192).  Builds the
upsert payload from the request body and the path `user_id`, performs
the upsert, and returns the store's row list.  Note: `current_user` is
never consulted. -/
def update_profile (currentUser : User) (user_id : String) (body : UpdateBody)
    (upsert : ProfileRow → Except String (List ProfileRow))
    (now : String) : Response (List ProfileRow) × List Effect :=
  let profile_data : ProfileRow :=
    { id := user_id, email := none, username := body.username,
      fullName := body.fullName, avatarUrl := body.avatarUrl, updatedAt := now }
  match upsert profile_data with
  | .error e => (⟨500, .detail e⟩, [.upsertProfile profile_data])
  | .ok rows => (⟨200, .payload rows⟩, [.upsertProfile profile_data])

/-- A multipart file part: `contentType = none` models a part that
declares no `Content-Type`; `content` is the byte string `file.read()`
returns. -/
structure FileUpload where
  filename : String
  contentType : Option String
  content : List Nat
deriving DecidableEq

/-- Result of the object-storage upload call: success, a response
carrying a truthy `error` attribute, or a raised exception. -/
inductive UploadResult where
  | ok
  | errorAttr (e : String)
  | raised (e : String)
deriving DecidableEq

/-- `allowed_types` from main.py line 209. -/
def allowed_types : List String := ["image/jpeg", "image/png", "image/jpg"]

/-- `ext_map.get(content_type, ".jpg")` from main.py lines 216-221. -/
def ext_map (ct : String) : String :=
  if ct = "image/jpeg" then ".jpg"
  else if ct = "image/jpg" then ".jpg"
  else if ct = "image/png" then ".png"
  else ".jpg"

/-- `POST /api/profile/<user_id>/avatar` (main.py lines 194-252).
`file?` is `request.files['file']` if present; `upload` the storage
upload outcome, `publicUrl` the `get_public_url` result, `update` the
profiles-table update outcome.  Python's
`file.content_type or "image/jpeg"` maps an absent or empty declared
content type to `image/jpeg`. -/
def upload_avatar (currentUser : User) (user_id : String)
    (file? : Option FileUpload) (upload : UploadResult) (publicUrl : String)
    (update : Except String (List ProfileRow)) (now : String) :
    Response String × List Effect :=
  if user_id ≠ currentUser.id then
    (⟨403, .detail "Not authorized to update this profile"⟩, [])
  else
    match file? with
    | none => (⟨400, .detail "No file provided"⟩, [])
    | some file =>
      if file.filename = "" then (⟨400, .detail "No file provided"⟩, [])
      else
        let content_type :=
          match file.contentType with
          | none => "image/jpeg"
          | some s => if s = "" then "image/jpeg" else s
        if content_type ∉ allowed_types then
          (⟨400, .detail ("File type not allowed. Allowed types: " ++
            "image/jpeg, image/png, image/jpg")⟩, [])
        else
          let file_name := user_id ++ ext_map content_type
          let eff1 := Effect.storageUpload file_name file.content content_type
          match upload with
          | .raised e => (⟨500, .detail e⟩, [eff1])
          | .errorAttr e => (⟨500, .detail e⟩, [eff1])
          | .ok =>
            let eff2 := Effect.updateProfileAvatar user_id publicUrl now
            match update with
            | .error e => (⟨500, .detail e⟩, [eff1, eff2])
            | .ok [] =>
              (⟨500, .detail "Failed to update profile with avatar URL"⟩,
                [eff1, eff2])
            | .ok (_ :: _) => (⟨200, .payload publicUrl⟩, [eff1, eff2])

/-- `POST /api/weight` (main.py lines 254-282), after the body has been
parsed: `weight = float(data["weight"])` is modelled as a rational and
`log_date` as the already-parsed ISO date string.  The range check
`weight <= 0 or weight >= 1000` precedes the store call. -/
def log_weight (currentUser : User) (weight : ℚ) (log_date : String)
    (upsert : WeightRow → Except String (List WeightRow)) :
    Response WeightRow × List Effect :=
  if weight ≤ 0 ∨ 1000 ≤ weight then
    (⟨400, .detail "Weight must be between 0 and 1000 kg"⟩, [])
  else
    let weight_data : WeightRow := ⟨currentUser.id, weight, log_date⟩
    match upsert weight_data with
    | .error e => (⟨500, .detail e⟩, [.upsertWeight weight_data])
    | .ok [] => (⟨500, .detail "Failed to log weight"⟩, [.upsertWeight weight_data])
    | .ok (r :: _) => (⟨200, .payload r⟩, [.upsertWeight weight_data])

/-- Descending order on `log_date`, the comparator of the
`order('log_date', desc=True)` clause. -/
def weightDesc (a b : WeightRow) : Prop :=
  dateLe b.logDate a.logDate = true

instance : DecidableRel weightDesc := fun a b => by
  unfold weightDesc; infer_instance

/-- `lexLe` is total. -/
theorem lexLe_total : ∀ a b : List Char, lexLe a b = true ∨ lexLe b a = true
  | [], _ => Or.inl rfl
  | _ :: _, [] => Or.inr rfl
  | x :: as, y :: bs => by
    by_cases hxy : x = y
    · subst hxy
      rcases lexLe_total as bs with h | h
      · exact Or.inl (by simp [lexLe, h])
      · exact Or.inr (by simp [lexLe, h])
    · rcases lt_or_gt_of_ne hxy with h | h
      · exact Or.inl (by simp [lexLe, hxy, h])
      · exact Or.inr (by simp [lexLe, Ne.symm hxy, h])

/-- `lexLe` is transitive. -/
theorem lexLe_trans : ∀ {a b c : List Char},
    lexLe a b = true → lexLe b c = true → lexLe a c = true
  | [], _, _, _, _ => rfl
  | _ :: _, [], _, h1, _ => by simp [lexLe] at h1
  | _ :: _, _ :: _, [], _, h2 => by simp [lexLe] at h2
  | x :: as, y :: bs, z :: cs, h1, h2 => by
    by_cases hxy : x = y <;> by_cases hyz : y = z
    · subst hxy; subst hyz
      simp only [lexLe, if_pos rfl] at h1 h2 ⊢
      exact lexLe_trans h1 h2
    · subst hxy
      simp only [lexLe, if_pos rfl, if_neg hyz, decide_eq_true_eq] at h2 ⊢
      exact h2
    · subst hyz
      simp only [lexLe, if_pos rfl, if_neg hxy, decide_eq_true_eq] at h1 ⊢
      exact h1
    · simp only [lexLe, if_neg hxy, if_neg hyz, decide_eq_true_eq] at h1 h2
      have hxz : x < z := lt_trans h1 h2
      simp [lexLe, ne_of_lt hxz, hxz]

instance : IsTotal WeightRow weightDesc :=
  ⟨fun a b => lexLe_total b.logDate.data a.logDate.data⟩

instance : IsTrans WeightRow weightDesc :=
  ⟨fun _ _ _ h1 h2 => lexLe_trans h2 h1⟩

/-- `GET /api/weight/<user_id>` (main.py lines 284-302).  The store
holds the `weight_logs` table; the query chain `eq / gte / lte / order`
is evaluated with the store's semantics (filters, then a descending
sort on `log_date`).  `store = .error e` models a raised exception.
Python's `if start_date:` treats an absent or empty parameter alike, so
an empty-string bound is not applied. -/
def get_weight_logs (currentUser : User) (user_id : String)
    (start_date end_date : Option String)
    (store : Except String (List WeightRow)) : Response (List WeightRow) :=
  match store with
  | .error e => ⟨500, .detail e⟩
  | .ok table =>
    let q1 := table.filter (fun r => r.userId == user_id)
    let q2 := match start_date with
      | some s => if s = "" then q1 else q1.filter (fun r => dateLe s r.logDate)
      | none => q1
    let q3 := match end_date with
      | some e => if e = "" then q2 else q2.filter (fun r => dateLe r.logDate e)
      | none => q2
    ⟨200, .payload (List.insertionSort weightDesc q3)⟩

/-- A session as serialized by `serialize_session` (main.py lines 59-65). -/
structure Session where
  accessToken : String
  refreshToken : String
deriving DecidableEq

/-- The identity provider's response to `sign_in_with_password`:
`serialize_user` / `serialize_session` return `None` for a missing
user or session. -/
structure SignInResponse where
  user : Option User
  session : Option Session
deriving DecidableEq

/-- Successful login payload: access token, refresh token and user. -/
structure LoginSuccess where
  accessToken : String
  refreshToken : String
  user : User
deriving DecidableEq

/-- `POST /api/auth/login` (main.py lines 95-124).  `signIn` is the
outcome of `client.auth.sign_in_with_password`; a raised exception is
caught and mapped to 401 with the exception's string representation. -/
def login (signIn : Except String SignInResponse) : Response LoginSuccess :=
  match signIn with
  | .error e => ⟨401, .detail e⟩
  | .ok r =>
    match r.user, r.session with
    | some u, some s => ⟨200, .payload ⟨s.accessToken, s.refreshToken, u⟩⟩
    | _, _ => ⟨500, .detail "Invalid response from authentication service"⟩

/-- `POST /api/auth/register` (main.py lines 126-143).  A raised
exception is caught and mapped to 400; on success the (possibly absent)
serialized user is returned with a fixed message. -/
def register (signUp : Except String (Option User)) :
    Response (String × Option User) :=
  match signUp with
  | .error e => ⟨400, .detail e⟩
  | .ok u => ⟨200, .payload ("Registration successful", u)⟩

/-- Last-wins lookup of a user's weight, modelling the Python dict
comprehension `{w['user_id']: w['weight'] for w in data}` in which a
later row for the same key overwrites an earlier one. -/
def lookupLastWeight (k : String) : List WeightRow → Option ℚ
  | [] => none
  | w :: ws =>
    match lookupLastWeight k ws with
    | some v => some v
    | none => if w.userId = k then some w.weight else none

/-- A profile with the optional `weight_logs` entry `GET /api/users`
attaches for the target date. -/
structure UserWithWeight where
  profile : ProfileRow
  weightLog : Option (ℚ × String)
deriving DecidableEq

/-- `GET /api/users` (main.py lines 304-343).  `profilesRes` is the
result of selecting all profiles, `weightsRes` of selecting the weight
rows whose `log_date` equals the target date; an empty or absent `date`
parameter defaults to today's date. -/
def get_users (dateParam : Option String) (today : String)
    (profilesRes : Except String (List ProfileRow))
    (weightsRes : Except String (List WeightRow)) :
    Response (List UserWithWeight) :=
  let target :=
    match dateParam with
    | some s => if s = "" then today else s
    | none => today
  match profilesRes with
  | .error e => ⟨500, .detail e⟩
  | .ok [] => ⟨200, .payload []⟩
  | .ok profiles =>
    match weightsRes with
    | .error e => ⟨500, .detail e⟩
    | .ok weights =>
      ⟨200, .payload (profiles.map fun p =>
        ⟨p, (lookupLastWeight p.id weights).map fun w => (w, target)⟩)⟩

/-! ## Claims -/

/-- C1: for a well-formed `POST /api/weight` body with numeric weight
`w`, if `w ≤ 0` or `w ≥ 1000` the handler returns HTTP 400 with a
validation error (and no store call is made); if `0 < w < 1000` it
proceeds to the upsert, and when the store call succeeds the stored row
is returned with status 200. -/
theorem c1_weight_validation (cu : User) (w : ℚ) (ld : String)
    (upsert : WeightRow → Except String (List WeightRow)) :
    ((w ≤ 0 ∨ 1000 ≤ w) →
      log_weight cu w ld upsert =
        (⟨400, .detail "Weight must be between 0 and 1000 kg"⟩, [])) ∧
    (0 < w → w < 1000 → ∀ r rest,
      upsert ⟨cu.id, w, ld⟩ = Except.ok (r :: rest) →
      log_weight cu w ld upsert =
        (⟨200, .payload r⟩, [.upsertWeight ⟨cu.id, w, ld⟩])) := by
  constructor
  · intro h
    simp [log_weight, h]
  · intro h1 h2 r rest hup
    have hn : ¬ (w ≤ 0 ∨ 1000 ≤ w) := by
      push_neg
      exact ⟨h1, h2⟩
    simp [log_weight, hn, hup]

/-- Witness for C1 at `w = 1500` (rejected) and `w = 70` (stored). -/
theorem c1_weight_validation_witness :
    log_weight ⟨"u1", "a@b.c"⟩ 1500 "2024-01-01" (fun wd => .ok [wd]) =
      (⟨400, .detail "Weight must be between 0 and 1000 kg"⟩, []) ∧
    log_weight ⟨"u1", "a@b.c"⟩ 70 "2024-01-01" (fun wd => .ok [wd]) =
      (⟨200, .payload ⟨"u1", 70, "2024-01-01"⟩⟩,
       [.upsertWeight ⟨"u1", 70, "2024-01-01"⟩]) :=
  ⟨(c1_weight_validation ⟨"u1", "a@b.c"⟩ 1500 "2024-01-01" _).1 (by decide),
   (c1_weight_validation ⟨"u1", "a@b.c"⟩ 70 "2024-01-01" _).2
     (by decide) (by decide) _ _ rfl⟩

/-- C3: an authenticated request to the profile fetch or the avatar
upload endpoint whose path `user_id` differs from the authenticated
identity's id receives HTTP 403, with no store call made. -/
theorem c3_ownership_forbidden (cu : User) (uid : String) (h : uid ≠ cu.id)
    (sel : Except String (Option ProfileRow))
    (ins : ProfileRow → Except String (List ProfileRow))
    (file? : Option FileUpload) (up : UploadResult) (url : String)
    (upd : Except String (List ProfileRow)) (now : String) :
    get_profile cu uid sel ins now =
      (⟨403, .detail "Not authorized to view this profile"⟩, []) ∧
    upload_avatar cu uid file? up url upd now =
      (⟨403, .detail "Not authorized to update this profile"⟩, []) := by
  constructor
  · simp [get_profile, h]
  · simp [upload_avatar, h]

/-- Witness for C3: user `u1` requesting `u2`'s profile and avatar. -/
theorem c3_ownership_forbidden_witness :
    get_profile ⟨"u1", "a@b.c"⟩ "u2" (.ok none) (fun row => .ok [row]) "t0" =
      (⟨403, .detail "Not authorized to view this profile"⟩, []) ∧
    upload_avatar ⟨"u1", "a@b.c"⟩ "u2" (some ⟨"f.png", some "image/png", [1]⟩)
        .ok "URL" (.ok []) "t0" =
      (⟨403, .detail "Not authorized to update this profile"⟩, []) :=
  c3_ownership_forbidden ⟨"u1", "a@b.c"⟩ "u2" (by decide) _ _ _ _ _ _ _

/-- C5: `PUT /api/profile/<user_id>` has no ownership check: its result
is independent of the authenticated identity, the upsert is always
performed with the path `user_id`, and the response status is never
403. -/
theorem c5_update_no_ownership_check (cu cu' : User) (uid : String)
    (body : UpdateBody) (upsert : ProfileRow → Except String (List ProfileRow))
    (now : String) :
    update_profile cu uid body upsert now =
      update_profile cu' uid body upsert now ∧
    (update_profile cu uid body upsert now).2 =
      [.upsertProfile ⟨uid, none, body.username, body.fullName,
        body.avatarUrl, now⟩] ∧
    (update_profile cu uid body upsert now).1.status ≠ 403 := by
  refine ⟨rfl, ?_, ?_⟩
  · unfold update_profile
    cases h : upsert ⟨uid, none, body.username, body.fullName,
      body.avatarUrl, now⟩ <;> simp [h]
  · unfold update_profile
    cases h : upsert ⟨uid, none, body.username, body.fullName,
      body.avatarUrl, now⟩ <;> simp [h]

/-- C10: `GET /api/weight/<user_id>` has no ownership check: the
response is independent of the authenticated identity and is never
403. -/
theorem c10_weight_list_no_ownership (cu cu' : User) (uid : String)
    (sd ed : Option String) (store : Except String (List WeightRow)) :
    get_weight_logs cu uid sd ed store = get_weight_logs cu' uid sd ed store ∧
    (get_weight_logs cu uid sd ed store).status ≠ 403 := by
  refine ⟨rfl, ?_⟩
  unfold get_weight_logs
  cases store <;> simp

/-- C4: when the profile's owner fetches a profile and no row exists
(the select comes back empty) and the store echoes inserts, the handler
performs exactly one insert, whose row's `username` is the local part
of the authenticated email, and returns that row with its `email` field
set to the authenticated identity's email. -/
theorem c4_profile_lazy_creation (cu : User) (uid now : String)
    (ins : ProfileRow → Except String (List ProfileRow))
    (h : uid = cu.id) (hins : ∀ row, ins row = .ok [row]) :
    get_profile cu uid (.ok none) ins now =
      (⟨200, .payload ⟨uid, some cu.email, some (localPart cu.email),
         some "", none, now⟩⟩,
       [.insertProfile ⟨uid, some cu.email, some (localPart cu.email),
         some "", none, now⟩]) := by
  subst h
  simp [get_profile, hins]

/-- Witness for C4: `alice@example.com` gets a profile with username
`alice` and her email echoed back. -/
theorem c4_profile_lazy_creation_witness :
    get_profile ⟨"u1", "alice@example.com"⟩ "u1" (.ok none)
        (fun row => .ok [row]) "t0" =
      (⟨200, .payload ⟨"u1", some "alice@example.com", some "alice",
         some "", none, "t0"⟩⟩,
       [.insertProfile ⟨"u1", some "alice@example.com", some "alice",
         some "", none, "t0"⟩]) :=
  (c4_profile_lazy_creation ⟨"u1", "alice@example.com"⟩ "u1" "t0"
    (fun row => .ok [row]) rfl (fun _ => rfl)).trans (by decide)

/-- C2 (counterexample): a header that is not of the documented
`Bearer <token>` form — here scheme `Basic` — still has its second
space-separated field forwarded to the identity provider, and when the
provider accepts that token the response is 200, not 401.  So a
malformed header neither guarantees 401 nor avoids the provider call. -/
theorem c2_malformed_header_counterexample :
    bearerFormat "Basic tok" = false ∧
    (require_auth (some "Basic tok") (fun _ => .ok ⟨"u1", "a@b.c"⟩)
      (fun _ => ⟨200, .payload "ok"⟩)).2 = true ∧
    (require_auth (some "Basic tok") (fun _ => .ok ⟨"u1", "a@b.c"⟩)
      (fun _ => ⟨200, .payload "ok"⟩)).1.status = 200 := by
  refine ⟨by decide, rfl, rfl⟩

/-- C2 (amended): a request with no `Authorization` header, or whose
header splits on single spaces into fewer than two fields, receives 401
and the identity provider is not invoked; any header with at least two
fields has its second field forwarded to the provider as the token,
regardless of the scheme. -/
theorem c2_auth_gate {α : Type} (getUser : String → AuthResult)
    (handler : User → Response α) :
    (require_auth none getUser handler =
      (⟨401, .detail "Not authenticated - No auth header"⟩, false)) ∧
    (∀ h : String, (splitOnChar ' ' h.data).length < 2 →
      require_auth (some h) getUser handler =
        (⟨401, .detail
          "Invalid authentication credentials: list index out of range"⟩,
         false)) ∧
    (∀ (h : String) (a t : List Char) (rest : List (List Char)),
      splitOnChar ' ' h.data = a :: t :: rest →
      (require_auth (some h) getUser handler).2 = true) := by
  refine ⟨rfl, ?_, ?_⟩
  · intro h hlen
    simp only [require_auth]
    rcases hp : splitOnChar ' ' h.data with - | ⟨a, - | ⟨t, r⟩⟩
    · rfl
    · rfl
    · exact absurd hlen (by simp [hp])
  · intro h a t rest hp
    simp only [require_auth]
    rw [hp]
    cases hg : getUser ⟨t⟩ <;> simp [hg]

/-- Witness for C2 (amended): a one-field header `Bearer` is rejected
without a provider call; `Bearer tok` reaches the provider. -/
theorem c2_auth_gate_witness :
    (require_auth (α := String) none (fun _ => .noUser)
        (fun _ => ⟨200, .payload "ok"⟩) =
      (⟨401, .detail "Not authenticated - No auth header"⟩, false)) ∧
    (require_auth (α := String) (some "Bearer") (fun _ => .noUser)
        (fun _ => ⟨200, .payload "ok"⟩) =
      (⟨401, .detail
        "Invalid authentication credentials: list index out of range"⟩,
       false)) ∧
    (require_auth (α := String) (some "Bearer tok") (fun _ => .noUser)
        (fun _ => ⟨200, .payload "ok"⟩)).2 = true :=
  ⟨(c2_auth_gate (fun _ => .noUser) (fun _ => ⟨200, .payload "ok"⟩)).1,
   (c2_auth_gate (fun _ => .noUser) (fun _ => ⟨200, .payload "ok"⟩)).2.1
     "Bearer" (by decide),
   (c2_auth_gate (fun _ => .noUser) (fun _ => ⟨200, .payload "ok"⟩)).2.2
     "Bearer tok" "Bearer".data "tok".data [] (by decide)⟩

/-- C6: `GET /api/weight/<user_id>` returns exactly the stored entries
for that `user_id` whose `log_date` lies within the inclusive
`start_date`/`end_date` bounds (each bound applied only when supplied;
date parameters are nonempty strings), as a permutation sorted by
`log_date` descending. -/
theorem c6_weight_list_filter_sort (cu : User) (uid : String)
    (sd ed : Option String) (table : List WeightRow)
    (hs : sd ≠ some "") (he : ed ≠ some "") :
    ∃ out, get_weight_logs cu uid sd ed (.ok table) = ⟨200, .payload out⟩ ∧
      out.Perm (table.filter fun r =>
        (r.userId == uid) &&
        sd.all (fun s => dateLe s r.logDate) &&
        ed.all (fun e => dateLe r.logDate e)) ∧
      List.Sorted weightDesc out := by
  rcases sd with - | s
  · rcases ed with - | e
    · refine ⟨_, rfl, ?_, List.sorted_insertionSort weightDesc _⟩
      have hperm := List.perm_insertionSort weightDesc
        (table.filter fun r => r.userId == uid)
      simpa using hperm
    · have he' : ¬ e = "" := fun h => he (by rw [h])
      refine ⟨List.insertionSort weightDesc
          ((table.filter fun r => r.userId == uid).filter
            fun r => dateLe r.logDate e),
        by simp only [get_weight_logs, if_neg he'], ?_,
        List.sorted_insertionSort weightDesc _⟩
      refine (List.perm_insertionSort weightDesc _).trans (List.Perm.of_eq ?_)
      rw [List.filter_filter]
      refine List.filter_congr fun a _ => ?_
      simp only [Option.all_some, Option.all_none, Bool.and_true, Bool.true_and]
      ac_rfl
  · have hs' : ¬ s = "" := fun h => hs (by rw [h])
    rcases ed with - | e
    · refine ⟨List.insertionSort weightDesc
          ((table.filter fun r => r.userId == uid).filter
            fun r => dateLe s r.logDate),
        by simp only [get_weight_logs, if_neg hs'], ?_,
        List.sorted_insertionSort weightDesc _⟩
      refine (List.perm_insertionSort weightDesc _).trans (List.Perm.of_eq ?_)
      rw [List.filter_filter]
      refine List.filter_congr fun a _ => ?_
      simp only [Option.all_some, Option.all_none, Bool.and_true, Bool.true_and]
      ac_rfl
    · have he' : ¬ e = "" := fun h => he (by rw [h])
      refine ⟨List.insertionSort weightDesc
          (((table.filter fun r => r.userId == uid).filter
              fun r => dateLe s r.logDate).filter
            fun r => dateLe r.logDate e),
        by simp only [get_weight_logs, if_neg hs', if_neg he'], ?_,
        List.sorted_insertionSort weightDesc _⟩
      refine (List.perm_insertionSort weightDesc _).trans (List.Perm.of_eq ?_)
      rw [List.filter_filter, List.filter_filter]
      refine List.filter_congr fun a _ => ?_
      simp only [Option.all_some, Option.all_none, Bool.and_true, Bool.true_and]
      ac_rfl

/-- Witness for C6: a three-row table for two users, bounds
`2024-01-01 ≤ log_date ≤ 2024-01-31`, result sorted descending. -/
theorem c6_weight_list_filter_sort_witness :
    ∃ out, get_weight_logs ⟨"u1", "a@b.c"⟩ "u1"
        (some "2024-01-01") (some "2024-01-31")
        (.ok [⟨"u1", 70, "2024-01-05"⟩, ⟨"u2", 80, "2024-01-06"⟩,
              ⟨"u1", 71, "2024-01-20"⟩, ⟨"u1", 72, "2023-12-30"⟩]) =
        ⟨200, .payload out⟩ ∧
      out.Perm [⟨"u1", 70, "2024-01-05"⟩, ⟨"u1", 71, "2024-01-20"⟩] ∧
      List.Sorted weightDesc out :=
  have h := c6_weight_list_filter_sort ⟨"u1", "a@b.c"⟩ "u1"
    (some "2024-01-01") (some "2024-01-31")
    [⟨"u1", 70, "2024-01-05"⟩, ⟨"u2", 80, "2024-01-06"⟩,
     ⟨"u1", 71, "2024-01-20"⟩, ⟨"u1", 72, "2023-12-30"⟩]
    (by decide) (by decide)
  by
    rcases h with ⟨out, heq, hperm, hsort⟩
    refine ⟨out, heq, ?_, hsort⟩
    have : ([⟨"u1", 70, "2024-01-05"⟩, ⟨"u2", 80, "2024-01-06"⟩,
             ⟨"u1", 71, "2024-01-20"⟩, ⟨"u1", 72, "2023-12-30"⟩] :
            List WeightRow).filter (fun r =>
        (r.userId == "u1") &&
        (some "2024-01-01").all (fun s => dateLe s r.logDate) &&
        (some "2024-01-31").all (fun e => dateLe r.logDate e)) =
        [⟨"u1", 70, "2024-01-05"⟩, ⟨"u1", 71, "2024-01-20"⟩] := by decide
    exact this ▸ hperm

/-- C7 (counterexample): the claim fails at a declared content type
that is the empty string: `""` is not among the allowed types, yet
Python's `file.content_type or "image/jpeg"` replaces it with
`image/jpeg`, so the upload proceeds (status 200) and both store
mutations happen.  Separately, a non-owner sending an unsupported type
receives 403, not 400. -/
theorem c7_content_type_counterexample :
    ("" ∈ allowed_types) = False ∧
    (upload_avatar ⟨"u1", "a@b.c"⟩ "u1" (some ⟨"f.bin", some "", [7]⟩)
      .ok "URL" (.ok [⟨"u1", none, none, none, some "URL", "t0"⟩])
      "t0").1.status = 200 ∧
    (upload_avatar ⟨"u1", "a@b.c"⟩ "u1" (some ⟨"f.bin", some "", [7]⟩)
      .ok "URL" (.ok [⟨"u1", none, none, none, some "URL", "t0"⟩])
      "t0").2 ≠ [] ∧
    (upload_avatar ⟨"u1", "a@b.c"⟩ "u2"
      (some ⟨"f.txt", some "text/plain", [7]⟩)
      .ok "URL" (.ok []) "t0").1.status = 403 := by
  refine ⟨by simp [allowed_types], rfl, by decide, rfl⟩

/-- C7 (amended): for every avatar upload by the profile owner whose
file's declared content type is nonempty and not one of `image/jpeg`,
`image/jpg`, `image/png`, the endpoint returns HTTP 400 and performs no
store mutation (no object-storage upload, no profile-row update). -/
theorem c7_unsupported_type_rejected (cu : User) (file : FileUpload)
    (ct : String) (up : UploadResult) (url : String)
    (updRes : Except String (List ProfileRow)) (now : String)
    (hct : file.contentType = some ct) (hne : ct ≠ "")
    (hnot : ct ∉ allowed_types) :
    (upload_avatar cu cu.id (some file) up url updRes now).1.status = 400 ∧
    (upload_avatar cu cu.id (some file) up url updRes now).2 = [] := by
  by_cases hfn : file.filename = ""
  · constructor <;> simp [upload_avatar, hfn]
  · constructor <;> simp [upload_avatar, hfn, hct, hne, hnot]

/-- Witness for C7 (amended) at `text/plain`. -/
theorem c7_unsupported_type_rejected_witness :
    (upload_avatar ⟨"u1", "a@b.c"⟩ "u1" (some ⟨"f.txt", some "text/plain", [7]⟩)
      .ok "URL" (.ok []) "t0").1.status = 400 ∧
    (upload_avatar ⟨"u1", "a@b.c"⟩ "u1" (some ⟨"f.txt", some "text/plain", [7]⟩)
      .ok "URL" (.ok []) "t0").2 = [] :=
  c7_unsupported_type_rejected ⟨"u1", "a@b.c"⟩ ⟨"f.txt", some "text/plain", [7]⟩
    "text/plain" .ok "URL" (.ok []) "t0" rfl (by decide) (by decide)

/-- C8 (counterexample): an upload of 5 MiB + 1 bytes with an allowed
content type is not rejected — there is no size check in
`upload_avatar` — and the object-storage upload is performed with the
full content. -/
theorem c8_size_limit_counterexample :
    5 * 1024 * 1024 < (List.replicate (5 * 1024 * 1024 + 1) (0 : Nat)).length ∧
    (upload_avatar ⟨"u1", "a@b.c"⟩ "u1"
      (some ⟨"big.png", some "image/png", List.replicate (5 * 1024 * 1024 + 1) 0⟩)
      .ok "URL" (.ok [⟨"u1", none, none, none, some "URL", "t0"⟩])
      "t0").1.status = 200 ∧
    (upload_avatar ⟨"u1", "a@b.c"⟩ "u1"
      (some ⟨"big.png", some "image/png", List.replicate (5 * 1024 * 1024 + 1) 0⟩)
      .ok "URL" (.ok [⟨"u1", none, none, none, some "URL", "t0"⟩])
      "t0").2 =
      [.storageUpload ("u1" ++ ext_map "image/png")
        (List.replicate (5 * 1024 * 1024 + 1) 0) "image/png",
       .updateProfileAvatar "u1" "URL" "t0"] := by
  refine ⟨?_, rfl, rfl⟩
  rw [List.length_replicate]
  omega

/-- C8 (amended): the avatar upload endpoint enforces no maximum file
size: an otherwise-valid upload is processed identically whatever its
content, in particular when the content exceeds 5 MiB. -/
theorem c8_no_size_limit (cu : User) (fn : String) (content : List Nat)
    (url now : String) (row : ProfileRow) (rest : List ProfileRow)
    (hfn : fn ≠ "") :
    upload_avatar cu cu.id (some ⟨fn, some "image/png", content⟩) .ok url
      (.ok (row :: rest)) now =
      (⟨200, .payload url⟩,
       [.storageUpload (cu.id ++ ".png") content "image/png",
        .updateProfileAvatar cu.id url now]) := by
  simp [upload_avatar, hfn, allowed_types, ext_map]

/-- Witness for C8 (amended) at a 5 MiB + 1 content. -/
theorem c8_no_size_limit_witness :
    upload_avatar ⟨"u1", "a@b.c"⟩ "u1"
      (some ⟨"big.png", some "image/png", List.replicate (5 * 1024 * 1024 + 1) 0⟩)
      .ok "URL" (.ok [⟨"u1", none, none, none, some "URL", "t0"⟩]) "t0" =
      (⟨200, .payload "URL"⟩,
       [.storageUpload ("u1" ++ ".png")
         (List.replicate (5 * 1024 * 1024 + 1) 0) "image/png",
        .updateProfileAvatar "u1" "URL" "t0"]) :=
  c8_no_size_limit ⟨"u1", "a@b.c"⟩ "big.png"
    (List.replicate (5 * 1024 * 1024 + 1) 0) "URL" "t0"
    ⟨"u1", none, none, none, some "URL", "t0"⟩ [] (by decide)

/-- C9 (counterexample): the claim says a caught exception yields
status 500 unless a specific status was assigned earlier in the
handler; but `login` assigns no status before its external call and its
`except` clause maps the exception to 401 — with the exception's string
representation as the detail — not to 500. -/
theorem c9_login_exception_counterexample :
    login (.error "boom") = ⟨401, .detail "boom"⟩ ∧ (401 : Nat) ≠ 500 :=
  ⟨rfl, by decide⟩

/-- C9 (amended): every handler that wraps its body in a blanket
exception guard catches any exception from its external calls and
returns `{"detail": str(e)}`; the guard's status is 500 in the profile
fetch/update, avatar, weight-log, weight-list and users handlers, but
401 in `login` and 400 in `register`. -/
theorem c9_exception_mapping (e : String) (cu : User) (uid : String)
    (ins : ProfileRow → Except String (List ProfileRow))
    (body : UpdateBody) (now ld : String) (sd ed : Option String)
    (dp : Option String) (today : String)
    (wres : Except String (List WeightRow)) (url : String)
    (updRes : Except String (List ProfileRow)) (fn : String)
    (content : List Nat) :
    (get_profile cu cu.id (.error e) ins now).1 = ⟨500, .detail e⟩ ∧
    (update_profile cu uid body (fun _ => .error e) now).1 = ⟨500, .detail e⟩ ∧
    (fn ≠ "" →
      (upload_avatar cu cu.id (some ⟨fn, some "image/png", content⟩)
        (.raised e) url updRes now).1 = ⟨500, .detail e⟩) ∧
    (∀ w : ℚ, 0 < w → w < 1000 →
      (log_weight cu w ld (fun _ => .error e)).1 = ⟨500, .detail e⟩) ∧
    get_weight_logs cu uid sd ed (.error e) = ⟨500, .detail e⟩ ∧
    get_users dp today (.error e) wres = ⟨500, .detail e⟩ ∧
    login (.error e) = ⟨401, .detail e⟩ ∧
    register (.error e) = ⟨400, .detail e⟩ := by
  refine ⟨?_, ?_, ?_, ?_, rfl, ?_, rfl, rfl⟩
  · simp [get_profile]
  · simp [update_profile]
  · intro hfn
    simp [upload_avatar, hfn, allowed_types]
  · intro w h1 h2
    have hn : ¬ (w ≤ 0 ∨ 1000 ≤ w) := by
      push_neg
      exact ⟨h1, h2⟩
    simp [log_weight, hn]
  · unfold get_users
    rfl

/-- Witness for C9 (amended), discharging the avatar and weight-range
hypotheses at concrete inputs. -/
theorem c9_exception_mapping_witness :
    (upload_avatar ⟨"u1", "a@b.c"⟩ "u1" (some ⟨"f.png", some "image/png", [7]⟩)
      (.raised "boom") "URL" (.ok []) "t0").1 = ⟨500, .detail "boom"⟩ ∧
    (log_weight ⟨"u1", "a@b.c"⟩ 70 "2024-01-01" (fun _ => .error "boom")).1 =
      ⟨500, .detail "boom"⟩ :=
  have h := c9_exception_mapping "boom" ⟨"u1", "a@b.c"⟩ "u1" (fun _ => .ok [])
    ⟨none, none, none⟩ "t0" "2024-01-01" none none none "2024-01-01" (.ok [])
    "URL" (.ok []) "f.png" [7]
  ⟨h.2.2.1 (by decide), h.2.2.2.1 70 (by decide) (by decide)⟩

end DontEatKebab
